import Mathlib

/-!
Shallow embedding of the window-embedding subsystem of
`src/native/window-manager.cc` (a Win32 N-API module), together with proofs
about its behaviour.

Window styles are 32-bit values embedded as `Nat` below `2^32`; the C
operations `&= ~m`, `|=` are embedded with explicit 32-bit masking.  The
windowing system is modelled as a mock OS state: an ordered association list
of window handles to window records (the order is the `EnumWindows`
enumeration order), a thread-local last-error code, and a set of live process
ids.  Each exported N-API operation is translated line by line from the
source.
-/

namespace WindowManager

/-! ## Win32 style-bit constants (values from windows.h, as used in the source) -/

def WS_POPUP : Nat := 0x80000000
def WS_CHILD : Nat := 0x40000000
def WS_VISIBLE : Nat := 0x10000000
def WS_CAPTION : Nat := 0x00C00000
def WS_BORDER : Nat := 0x00800000
def WS_SYSMENU : Nat := 0x00080000
def WS_THICKFRAME : Nat := 0x00040000
def WS_MINIMIZEBOX : Nat := 0x00020000
def WS_MAXIMIZEBOX : Nat := 0x00010000

def WS_EX_DLGMODALFRAME : Nat := 0x00000001
def WS_EX_TOOLWINDOW : Nat := 0x00000080
def WS_EX_WINDOWEDGE : Nat := 0x00000100
def WS_EX_CLIENTEDGE : Nat := 0x00000200
def WS_EX_STATICEDGE : Nat := 0x00020000

/-- 32-bit all-ones mask: the width of a Win32 `LONG` style value. -/
def mask32 : Nat := 0xFFFFFFFF

/-- The C idiom `a &= ~m` on a 32-bit `LONG`: clear the bits of `m` in `a`. -/
def andNot (a m : Nat) : Nat := a &&& (mask32 ^^^ m)

/-! ## Generic bitwise helper lemmas -/

theorem lor_land_distrib (a b c : Nat) : (a ||| b) &&& c = (a &&& c) ||| (b &&& c) := by
  apply Nat.eq_of_testBit_eq
  intro i
  simp only [Nat.testBit_lor, Nat.testBit_land]
  cases a.testBit i <;> cases b.testBit i <;> cases c.testBit i <;> rfl

theorem land_lor_distrib (a b c : Nat) : a &&& (b ||| c) = (a &&& b) ||| (a &&& c) := by
  apply Nat.eq_of_testBit_eq
  intro i
  simp only [Nat.testBit_lor, Nat.testBit_land]
  cases a.testBit i <;> cases b.testBit i <;> cases c.testBit i <;> rfl

/-- Absorption: if every bit of `b` is a bit of `a` then `a ||| b = a`. -/
theorem lor_absorb (a b : Nat) (h : a &&& b = b) : a ||| b = a := by
  apply Nat.eq_of_testBit_eq
  intro i
  have hi := congrArg (fun n => Nat.testBit n i) h
  simp only [Nat.testBit_land] at hi
  simp only [Nat.testBit_lor]
  cases ha : a.testBit i <;> cases hb : b.testBit i <;>
    simp [ha, hb] at hi ⊢

/-- A value below `2^32` is unchanged by masking with the 32-bit all-ones mask. -/
theorem land_mask32 (s : Nat) (h : s < 2 ^ 32) : s &&& mask32 = s := by
  have hm : mask32 = 2 ^ 32 - 1 := by norm_num [mask32]
  rw [hm]
  exact Nat.and_pow_two_sub_one_of_lt_two_pow h

/-- Restriction to a sub-mask: if `s &&& M = M` and `m`'s bits lie in `M`,
then `s &&& m = m`. -/
theorem land_submask (s M m : Nat) (h : s &&& M = M) (hm : M &&& m = m) :
    s &&& m = m := by
  calc s &&& m = s &&& (M &&& m) := by rw [hm]
    _ = (s &&& M) &&& m := by rw [Nat.land_assoc]
    _ = M &&& m := by rw [h]
    _ = m := hm

/-! ## The style computations of `EmbedWindow` and `UnparentWindow`

`EmbedWindow`, lines 202-216: starting from the original style, strip
`WS_THICKFRAME`, `WS_MINIMIZEBOX`, `WS_MAXIMIZEBOX`, `WS_SYSMENU` and
`WS_POPUP`; add `WS_CHILD` and `WS_VISIBLE`; then add `WS_CAPTION ||| WS_BORDER`
when the original style carried a caption bit, else add `WS_BORDER` alone. -/

def embedStyle (originalStyle : Nat) : Nat :=
  let style := andNot originalStyle
    (WS_THICKFRAME ||| WS_MINIMIZEBOX ||| WS_MAXIMIZEBOX ||| WS_SYSMENU ||| WS_POPUP)
  let style := style ||| WS_CHILD ||| WS_VISIBLE
  if originalStyle &&& WS_CAPTION ≠ 0 then
    style ||| WS_CAPTION ||| WS_BORDER
  else
    style ||| WS_BORDER

/-- `EmbedWindow`, line 218: clear the four edge/frame extended-style bits. -/
def embedExStyle (originalExStyle : Nat) : Nat :=
  andNot originalExStyle
    (WS_EX_DLGMODALFRAME ||| WS_EX_WINDOWEDGE ||| WS_EX_CLIENTEDGE ||| WS_EX_STATICEDGE)

/-- `UnparentWindow`, lines 402-404: clear `WS_CHILD`, re-add the frame,
system-menu and minimize/maximize bits. -/
def detachStyle (style : Nat) : Nat :=
  (andNot style WS_CHILD) ||| WS_CAPTION ||| WS_THICKFRAME ||| WS_MINIMIZEBOX
    ||| WS_MAXIMIZEBOX ||| WS_SYSMENU

/-- The style computation exactly as the specification describes it: strip the
resizable-frame, minimize-box, maximize-box, system-menu and popup bits, add
the child-window and visible bits, then preserve the caption bit if it was
originally present and otherwise add a plain border bit. -/
def specEmbedStyle (originalStyle : Nat) : Nat :=
  (andNot originalStyle
      (WS_THICKFRAME ||| WS_MINIMIZEBOX ||| WS_MAXIMIZEBOX ||| WS_SYSMENU ||| WS_POPUP))
    ||| WS_CHILD ||| WS_VISIBLE
    ||| (if originalStyle &&& WS_CAPTION ≠ 0 then WS_CAPTION else WS_BORDER)

/-- Claim C2: `EmbedWindow`'s style computation agrees, for every original
style value, with the specification's description: it strips the
resizable-frame, minimize-box, maximize-box, system-menu and popup bits, adds
the child-window and visible bits, preserves the caption bit exactly when it
was originally present, and adds a plain border bit exactly when the caption
bit was originally absent.  (The extra `WS_BORDER` the code adds alongside
`WS_CAPTION` is absorbed: `WS_BORDER`'s bit is contained in `WS_CAPTION`.) -/
theorem embedStyle_matches_spec (originalStyle : Nat) :
    embedStyle originalStyle = specEmbedStyle originalStyle := by
  unfold embedStyle specEmbedStyle
  by_cases h : originalStyle &&& WS_CAPTION ≠ 0
  · rw [if_pos h, if_pos h,
      Nat.lor_assoc _ WS_CAPTION WS_BORDER,
      show WS_CAPTION ||| WS_BORDER = WS_CAPTION from by decide]
  · rw [if_neg h, if_neg h]

/-- The set of style bits a cooperative standard target window carries:
visible, caption, resizable frame, minimize/maximize boxes and system menu
(`WS_OVERLAPPEDWINDOW ||| WS_VISIBLE`). -/
def standardBits : Nat :=
  WS_VISIBLE ||| WS_CAPTION ||| WS_THICKFRAME ||| WS_MINIMIZEBOX
    ||| WS_MAXIMIZEBOX ||| WS_SYSMENU

/-- On a style that carries all the standard frame bits and carries neither
`WS_POPUP` nor `WS_CHILD`, the detach style restoration inverts the embed
style rewrite exactly. -/
theorem detach_embed_style (s : Nat)
    (hstd : s &&& standardBits = standardBits)
    (hnpc : s &&& (WS_POPUP ||| WS_CHILD) = 0)
    (h32 : s < 2 ^ 32) :
    detachStyle (embedStyle s) = s := by
  have hstd' : s &&& 0x10CF0000 = 0x10CF0000 := by
    have h : standardBits = 0x10CF0000 := by decide
    rw [h] at hstd; exact hstd
  have hnpc' : s &&& 0xC0000000 = 0 := by
    have h : (WS_POPUP ||| WS_CHILD : Nat) = 0xC0000000 := by decide
    rw [h] at hnpc; exact hnpc
  have hcap : s &&& WS_CAPTION = WS_CAPTION :=
    land_submask s 0x10CF0000 WS_CAPTION hstd' (by decide)
  have hcapne : s &&& WS_CAPTION ≠ 0 := by
    rw [hcap]; decide
  have e1 : embedStyle s = (s &&& 0x7FF0FFFF) ||| 0x50C00000 := by
    simp only [embedStyle, andNot]
    rw [if_pos hcapne, Nat.lor_assoc, Nat.lor_assoc, Nat.lor_assoc]
    congr 2
  have e2 : detachStyle ((s &&& 0x7FF0FFFF) ||| 0x50C00000)
      = (s &&& 0x3FF0FFFF) ||| 0x10CF0000 := by
    simp only [detachStyle, andNot]
    rw [Nat.lor_assoc, Nat.lor_assoc, Nat.lor_assoc, Nat.lor_assoc,
      lor_land_distrib, Nat.land_assoc, Nat.lor_assoc,
      show (0x50C00000 : Nat) &&& (mask32 ^^^ WS_CHILD) = 0x10C00000 from by decide]
    congr 2
  have hsub : s &&& 0xF0000 = 0xF0000 :=
    land_submask s 0x10CF0000 0xF0000 hstd' (by decide)
  have d1 : (s &&& 0x3FF0FFFF) ||| 0xF0000 = s := by
    conv_rhs => rw [← land_mask32 s h32]
    rw [show (mask32 : Nat) = 0x3FF0FFFF ||| (0xC0000000 ||| 0xF0000) from by decide,
      land_lor_distrib, land_lor_distrib, hnpc', hsub]
    simp
  have habs : (s &&& 0x3FF0FFFF) &&& 0x10C00000 = 0x10C00000 := by
    rw [Nat.land_assoc,
      show (0x3FF0FFFF : Nat) &&& 0x10C00000 = 0x10C00000 from by decide]
    exact land_submask s 0x10CF0000 0x10C00000 hstd' (by decide)
  rw [e1, e2,
    show (0x10CF0000 : Nat) = 0x10C00000 ||| 0xF0000 from by decide,
    ← Nat.lor_assoc, lor_absorb _ _ habs, d1]

/-! ## The mock windowing OS

A window record holds the live OS state the source reads and writes through
Win32 calls.  `parent = 0` means the window is top-level (`GetParent = NULL`).
`reparentError = 0` means `SetParent` succeeds on this window; a nonzero value
means the window (or the OS) refuses reparenting and `SetParent` fails setting
that error code — this models the foreign application's behaviour the source
defends against. -/

structure WindowState where
  live : Bool
  style : Nat
  exStyle : Nat
  parent : Nat
  title : String
  className : String
  pid : Nat
  rLeft : Int
  rTop : Int
  rRight : Int
  rBottom : Int
  reparentError : Nat
  procPath : Option String
deriving Repr, DecidableEq

/-- The mock OS: windows in `EnumWindows` enumeration order, the thread's
last-error code, and the set of live process ids. -/
structure MockOS where
  windows : List (Nat × WindowState)
  lastError : Nat
  processes : List Nat
deriving Repr, DecidableEq

def findW (ws : List (Nat × WindowState)) (h : Nat) : Option WindowState :=
  match ws with
  | [] => none
  | p :: rest => if p.1 == h then some p.2 else findW rest h

def updW (ws : List (Nat × WindowState)) (h : Nat) (f : WindowState → WindowState) :
    List (Nat × WindowState) :=
  ws.map (fun p => if p.1 == h && p.2.live then (p.1, f p.2) else p)

def MockOS.find (os : MockOS) (h : Nat) : Option WindowState := findW os.windows h

/-- Update the live window with handle `h` (writes to a destroyed handle are
dropped, as the corresponding Win32 calls fail without effect). -/
def MockOS.upd (os : MockOS) (h : Nat) (f : WindowState → WindowState) : MockOS :=
  { os with windows := updW os.windows h f }

/-- `IsWindow`: the handle is non-null and refers to a live window. -/
def isWindow (os : MockOS) (h : Nat) : Bool :=
  h != 0 && (match os.find h with
             | some w => w.live
             | none => false)

/-- `GetLastError` formatted as text (`GetLastErrorString` in the source,
which returns "Unknown error" when the error code is `0`). -/
def getLastErrorString (e : Nat) : String :=
  if e = 0 then "Unknown error" else "OS error " ++ toString e

/-- `ShowWindow(h, SW_SHOW / SW_HIDE)`: sets or clears `WS_VISIBLE` and
returns the *previous* visibility, per the Win32 contract. -/
def showWindowOS (os : MockOS) (h : Nat) (visible : Bool) : Bool × MockOS :=
  match os.find h with
  | some w =>
    if w.live then
      ((w.style &&& WS_VISIBLE) != 0,
        os.upd h (fun v =>
          { v with style := if visible then v.style ||| WS_VISIBLE
                            else andNot v.style WS_VISIBLE }))
    else (false, os)
  | none => (false, os)

/-- `SetParent(h, newParent)`: returns the previous parent handle (`0` both on
failure and when the window was top-level) and sets the last error on
failure. -/
def setParentOS (os : MockOS) (h : Nat) (newParent : Nat) : Nat × MockOS :=
  match os.find h with
  | some w =>
    if w.live then
      if w.reparentError != 0 then (0, { os with lastError := w.reparentError })
      else (w.parent, os.upd h (fun v => { v with parent := newParent }))
    else (0, { os with lastError := 1400 })
  | none => (0, { os with lastError := 1400 })

/-- `GetWindowLongW(h, GWL_STYLE)` (returns `0` for an invalid handle). -/
def getStyleOS (os : MockOS) (h : Nat) : Nat :=
  match os.find h with
  | some w => if w.live then w.style else 0
  | none => 0

/-- `GetWindowLongW(h, GWL_EXSTYLE)`. -/
def getExStyleOS (os : MockOS) (h : Nat) : Nat :=
  match os.find h with
  | some w => if w.live then w.exStyle else 0
  | none => 0

/-- `SetWindowLongW(h, GWL_STYLE, v)` (stores the low 32 bits). -/
def setStyleOS (os : MockOS) (h : Nat) (v : Nat) : MockOS :=
  os.upd h (fun w => { w with style := v &&& mask32 })

/-- `SetWindowLongW(h, GWL_EXSTYLE, v)`. -/
def setExStyleOS (os : MockOS) (h : Nat) (v : Nat) : MockOS :=
  os.upd h (fun w => { w with exStyle := v &&& mask32 })

/-- `GetWindowRect` as (left, top, right, bottom); fails on a dead handle. -/
def getWindowRectOS (os : MockOS) (h : Nat) : Option (Int × Int × Int × Int) :=
  match os.find h with
  | some w => if w.live then some (w.rLeft, w.rTop, w.rRight, w.rBottom) else none
  | none => none

/-- The `SWP_*` flags `SetWindowPos` is called with in the source. -/
structure SwpFlags where
  noSize : Bool
  noMove : Bool
  noZOrder : Bool
  showWin : Bool
  frameChanged : Bool
deriving Repr, DecidableEq

/-- `SetWindowPos`: repositions/resizes subject to `SWP_NOMOVE`/`SWP_NOSIZE`,
makes the window visible under `SWP_SHOWWINDOW`, and fails on a dead handle. -/
def setWindowPosOS (os : MockOS) (h : Nat) (x y cx cy : Int) (fl : SwpFlags) :
    Bool × MockOS :=
  match os.find h with
  | some w =>
    if w.live then
      (true, os.upd h (fun v =>
        let l := if fl.noMove then v.rLeft else x
        let t := if fl.noMove then v.rTop else y
        let wd := if fl.noSize then v.rRight - v.rLeft else cx
        let ht := if fl.noSize then v.rBottom - v.rTop else cy
        { v with rLeft := l, rTop := t, rRight := l + wd, rBottom := t + ht,
                 style := if fl.showWin then v.style ||| WS_VISIBLE else v.style }))
    else (false, { os with lastError := 1400 })
  | none => (false, { os with lastError := 1400 })

/-! ## The boundary result shape

Every exported operation fills a result object with a `success` flag and
optional payload fields — the shape of the `Napi::Object` each function
returns. -/

structure ApiResult where
  success : Bool
  error : Option String
  hwnd : Option Nat
  processId : Option Nat
  processHandle : Option Nat
  title : Option String
  processName : Option String
deriving Repr, DecidableEq

def okResult : ApiResult :=
  { success := true, error := none, hwnd := none, processId := none,
    processHandle := none, title := none, processName := none }

def errResult (msg : String) : ApiResult :=
  { success := false, error := some msg, hwnd := none, processId := none,
    processHandle := none, title := none, processName := none }

/-- Result plus the OS state after the call. -/
structure OpOutcome where
  res : ApiResult
  os : MockOS
deriving Repr, DecidableEq

/-! ## `FindMainWindow` (window-manager.cc lines 31-82) -/

/-- The shell/system window classes skipped unconditionally (lines 49-54). -/
def shellClass (c : String) : Bool :=
  c == "Shell_TrayWnd" || c == "Button" || c == "Progman" || c == "Shell_SecondaryTrayWnd"

/-- `IsWindowVisible`: the handle refers to a live window whose `WS_VISIBLE`
bit is set. -/
def isVisibleW (w : WindowState) : Bool :=
  w.live && (w.style &&& WS_VISIBLE) != 0

/-- The `EnumWindows` callback loop of `FindMainWindow`, iterating over the
enumeration in order; `best` is the `bestHwnd` fallback accumulator (`0` =
`NULL`).  Returning from inside the loop models the callback returning
`FALSE` (stop enumeration). -/
def findMainWindowLoop (processId : Nat) (ws : List (Nat × WindowState)) (best : Nat) : Nat :=
  match ws with
  | [] => best
  | (h, w) :: rest =>
    if w.pid == processId then
      if shellClass w.className then
        findMainWindowLoop processId rest best
      else if isVisibleW w && w.parent == 0 &&
          (w.title.length > 0 || (w.style &&& WS_CAPTION) != 0 || (w.style &&& WS_BORDER) != 0) then
        h
      else
        let best' := if best == 0 && w.live && (w.exStyle &&& WS_EX_TOOLWINDOW) == 0
                     then h else best
        findMainWindowLoop processId rest best'
    else
      findMainWindowLoop processId rest best

/-- `FindMainWindow`: the good match if the loop found one, else the
fallback, else `NULL`. -/
def findMainWindow (os : MockOS) (processId : Nat) : Nat :=
  findMainWindowLoop processId os.windows 0

/-! ## The exported operations (each translated line by line) -/

/-- `GetMainWindowAPI` (lines 503-525). -/
def getMainWindowAPI (os : MockOS) (processId : Nat) : ApiResult :=
  let hwnd := findMainWindow os processId
  if hwnd != 0 && isWindow os hwnd then
    { okResult with hwnd := some hwnd }
  else
    { okResult with success := false }

/-- The OS mutation calls `EmbedWindow` can issue, in order. -/
inductive OsCall where
  | showCall
  | bringToTop
  | setForeground
  | setParentCall
  | setLongCall
  | setPosCall
  | invalidateCall
  | updateCall
  | redrawCall
deriving Repr, DecidableEq

/-- Outcome of `EmbedWindow`: the result object, the OS state after the call,
and the trace of OS mutation calls issued before returning. -/
structure EmbedOutcome where
  res : ApiResult
  os : MockOS
  calls : List OsCall
deriving Repr, DecidableEq

/-- `EmbedWindow` (lines 138-262).  `BringWindowToTop`, `SetForegroundWindow`,
`InvalidateRect`, `UpdateWindow` and `RedrawWindow` change no modelled state
but are recorded in the call trace. -/
def embedWindow (os0 : MockOS) (hwnd parentHWND : Nat) (x y width height : Int) :
    EmbedOutcome :=
  if isWindow os0 hwnd = false then
    ⟨errResult "Invalid window handle", os0, []⟩
  else
    let os1 := (showWindowOS os0 hwnd true).2
    let sp := setParentOS os1 hwnd parentHWND
    let oldParent := sp.1
    let os2 := sp.2
    if oldParent == 0 && os2.lastError != 0 then
      if os2.lastError == 87 then
        ⟨errResult "Application refuses window embedding (security restriction)", os2,
          [.showCall, .bringToTop, .setForeground, .setParentCall]⟩
      else
        ⟨errResult ("Failed to set parent: " ++ getLastErrorString os2.lastError), os2,
          [.showCall, .bringToTop, .setForeground, .setParentCall]⟩
    else if isWindow os2 hwnd = false then
      ⟨errResult "Window closed immediately after embedding (app may not support embedding)",
        os2, [.showCall, .bringToTop, .setForeground, .setParentCall]⟩
    else
      let originalStyle := getStyleOS os2 hwnd
      let originalExStyle := getExStyleOS os2 hwnd
      if isWindow os2 hwnd = false then
        ⟨errResult "Window closed immediately after SetParent (app security restriction)",
          os2, [.showCall, .bringToTop, .setForeground, .setParentCall]⟩
      else
        let os3 := setStyleOS os2 hwnd (embedStyle originalStyle)
        let os4 := setExStyleOS os3 hwnd (embedExStyle originalExStyle)
        if isWindow os4 hwnd = false then
          ⟨errResult "Window closed after style modification (app may not support embedding)",
            os4, [.showCall, .bringToTop, .setForeground, .setParentCall,
                  .setLongCall, .setLongCall]⟩
        else
          let wp := setWindowPosOS os4 hwnd x y width height
            ⟨false, false, true, true, true⟩
          if wp.1 = false then
            ⟨errResult ("Failed to position window: " ++ getLastErrorString wp.2.lastError),
              wp.2, [.showCall, .bringToTop, .setForeground, .setParentCall,
                     .setLongCall, .setLongCall, .setPosCall]⟩
          else if isWindow wp.2 hwnd = false then
            ⟨errResult "Window closed during embedding process",
              wp.2, [.showCall, .bringToTop, .setForeground, .setParentCall,
                     .setLongCall, .setLongCall, .setPosCall]⟩
          else
            let os6 := (showWindowOS wp.2 hwnd true).2
            ⟨okResult, os6,
              [.showCall, .bringToTop, .setForeground, .setParentCall,
               .setLongCall, .setLongCall, .setPosCall, .showCall, .bringToTop,
               .invalidateCall, .updateCall, .redrawCall]⟩

/-- `ShowWindowNative` (lines 265-292): reports as `success` the raw return
value of `::ShowWindow`, i.e. the window's previous visibility. -/
def showWindowNative (os0 : MockOS) (hwnd : Nat) (visible : Bool) : OpOutcome :=
  if isWindow os0 hwnd = false then
    ⟨errResult "Invalid window handle", os0⟩
  else
    let sw := showWindowOS os0 hwnd visible
    if sw.1 then ⟨okResult, sw.2⟩
    else ⟨errResult (getLastErrorString sw.2.lastError), sw.2⟩

/-- `ResizeWindow` (lines 295-332). -/
def resizeWindow (os0 : MockOS) (hwnd : Nat) (x y width height : Int) : OpOutcome :=
  if isWindow os0 hwnd = false then
    ⟨errResult "Invalid window handle", os0⟩
  else
    let wp := setWindowPosOS os0 hwnd x y width height ⟨false, false, false, true, false⟩
    if wp.1 then ⟨okResult, wp.2⟩
    else ⟨errResult (getLastErrorString wp.2.lastError), wp.2⟩

/-- `MoveWindowNative` (lines 335-380): reads the current rectangle,
re-applies its width and height, and repositions with `SWP_NOSIZE`. -/
def moveWindowNative (os0 : MockOS) (hwnd : Nat) (x y : Int) : OpOutcome :=
  if isWindow os0 hwnd = false then
    ⟨errResult "Invalid window handle", os0⟩
  else
    match getWindowRectOS os0 hwnd with
    | none =>
      ⟨errResult ("Failed to get window size: " ++ getLastErrorString os0.lastError), os0⟩
    | some (l, t, r, b) =>
      let width := r - l
      let height := b - t
      let wp := setWindowPosOS os0 hwnd x y width height ⟨true, false, false, true, false⟩
      if wp.1 then ⟨okResult, wp.2⟩
      else ⟨errResult (getLastErrorString wp.2.lastError), wp.2⟩

/-- `UnparentWindow` (lines 383-419): restore the frame style bits, clear
`WS_CHILD`, reparent to `NULL`, then `SetWindowPos` with
`SWP_NOMOVE ||| SWP_NOSIZE ||| SWP_NOZORDER ||| SWP_FRAMECHANGED`. -/
def unparentWindow (os0 : MockOS) (hwnd : Nat) : OpOutcome :=
  if isWindow os0 hwnd = false then
    ⟨errResult "Invalid window handle", os0⟩
  else
    let style := getStyleOS os0 hwnd
    let os1 := setStyleOS os0 hwnd (detachStyle style)
    let sp := setParentOS os1 hwnd 0
    let oldParent := sp.1
    let os2 := sp.2
    let os3 := (setWindowPosOS os2 hwnd 0 0 0 0 ⟨true, true, true, false, true⟩).2
    if oldParent != 0 || os3.lastError == 0 then
      ⟨okResult, os3⟩
    else
      ⟨errResult (getLastErrorString os3.lastError), os3⟩

/-- `TerminateProcessNative` (lines 422-450).  `OpenProcess` on a process id
that cannot be opened fails with `ERROR_INVALID_PARAMETER`. -/
def terminateProcessNative (os0 : MockOS) (processId : Nat) : OpOutcome :=
  if os0.processes.contains processId then
    ⟨okResult,
      { os0 with processes := os0.processes.filter (fun p => p != processId),
                 windows := os0.windows.map (fun p =>
                   if p.2.pid == processId then (p.1, { p.2 with live := false }) else p) }⟩
  else
    let os1 := { os0 with lastError := 87 }
    ⟨errResult ("Failed to open process: " ++ getLastErrorString os1.lastError), os1⟩

/-- Strip the directory part of a module path (`find_last_of("\\/")` plus
`substr` in the source). -/
def baseName (p : String) : String :=
  ((p.split (fun c => c == '\\' || c == '/')).getLast?).getD p

/-- `GetWindowInfoNative` (lines 453-500): returns the title and the owning
executable's file name, or "Unknown" when the process cannot be opened. -/
def getWindowInfoNative (os0 : MockOS) (hwnd : Nat) : OpOutcome :=
  if isWindow os0 hwnd = false then
    ⟨errResult "Invalid window handle", os0⟩
  else
    match os0.find hwnd with
    | some w =>
      ⟨{ okResult with
         title := some w.title
         processName := some (match w.procPath with
                              | some p => baseName p
                              | none => "Unknown") }, os0⟩
    | none => ⟨errResult "Invalid window handle", os0⟩

/-- `LaunchApplication` (lines 85-135); `spawn` is the oracle for the
`CreateProcessA` outcome (`none` = creation failed, `some (pid, handle)` =
created). -/
def launchApplication (os0 : MockOS) (_exePath : String) (spawn : Option (Nat × Nat)) :
    OpOutcome :=
  match spawn with
  | none =>
    ⟨errResult ("Failed to launch process: " ++ getLastErrorString os0.lastError), os0⟩
  | some (pid, handle) =>
    ⟨{ okResult with processId := some pid, processHandle := some handle },
      { os0 with processes := pid :: os0.processes }⟩

/-! ## State-lookup lemmas -/

theorem findW_cons (p : Nat × WindowState) (rest : List (Nat × WindowState)) (h : Nat) :
    findW (p :: rest) h = if p.1 == h then some p.2 else findW rest h := rfl

theorem updW_cons (p : Nat × WindowState) (rest : List (Nat × WindowState)) (h : Nat)
    (f : WindowState → WindowState) :
    updW (p :: rest) h f =
      (if p.1 == h && p.2.live then (p.1, f p.2) else p) :: updW rest h f := rfl

theorem findW_updW_self (ws : List (Nat × WindowState)) (h : Nat)
    (f : WindowState → WindowState) (w : WindowState)
    (hf : findW ws h = some w) (hl : w.live = true) :
    findW (updW ws h f) h = some (f w) := by
  induction ws with
  | nil => simp [findW] at hf
  | cons p rest ih =>
    by_cases hph : (p.1 == h) = true
    · have hp : p.2 = w := by
        rw [findW_cons, if_pos hph] at hf
        exact Option.some.inj hf
      have hcond : (p.1 == h && p.2.live) = true := by
        rw [hph, hp, hl]; rfl
      rw [updW_cons, if_pos hcond, findW_cons, if_pos hph, hp]
    · have hph' : (p.1 == h) = false := Bool.eq_false_iff.mpr hph
      have hf' : findW rest h = some w := by
        rw [findW_cons, if_neg (by simp [hph'])] at hf
        exact hf
      have hcond : (p.1 == h && p.2.live) = false := by
        rw [hph']; rfl
      rw [updW_cons, if_neg (by simp [hcond]), findW_cons, if_neg (by simp [hph'])]
      exact ih hf'

theorem find_upd_self (os : MockOS) (h : Nat) (f : WindowState → WindowState)
    (w : WindowState) (hf : os.find h = some w) (hl : w.live = true) :
    (os.upd h f).find h = some (f w) :=
  findW_updW_self os.windows h f w hf hl

theorem upd_lastError (os : MockOS) (h : Nat) (f : WindowState → WindowState) :
    (os.upd h f).lastError = os.lastError := rfl

theorem isWindow_true_of (os : MockOS) (h : Nat) (w : WindowState)
    (hz : h ≠ 0) (hf : os.find h = some w) (hl : w.live = true) :
    isWindow os h = true := by
  simp [isWindow, hf, hl, hz]

/-! ## Claim C5: embed on a dead handle -/

/-- Claim C5: for every embed request whose window handle is not a live
window, `EmbedWindow` returns failure at the first liveness check, issues no
OS mutation call (empty call trace), and leaves the OS state untouched. -/
theorem embed_dead_handle_no_mutation (os : MockOS) (hwnd parentHWND : Nat)
    (x y width height : Int) (h : isWindow os hwnd = false) :
    embedWindow os hwnd parentHWND x y width height =
      ⟨errResult "Invalid window handle", os, []⟩ := by
  simp [embedWindow, h]

/-- Witness for C5: a destroyed window (live = false) in a concrete OS. -/
theorem embed_dead_handle_no_mutation_witness :
    embedWindow
      ⟨[(5, ⟨false, 0, 0, 0, "t", "c", 7, 0, 0, 0, 0, 0, none⟩)], 0, [7]⟩
      5 1 0 0 100 100 =
      ⟨errResult "Invalid window handle",
        ⟨[(5, ⟨false, 0, 0, 0, "t", "c", 7, 0, 0, 0, 0, 0, none⟩)], 0, [7]⟩, []⟩ :=
  embed_dead_handle_no_mutation _ _ _ _ _ _ _ (by decide)

/-! ## Evaluation lemmas for the OS primitives on a live window -/

theorem showWindowOS_live (os : MockOS) (h : Nat) (w : WindowState) (vis : Bool)
    (hf : os.find h = some w) (hl : w.live = true) :
    showWindowOS os h vis =
      ((w.style &&& WS_VISIBLE) != 0,
        os.upd h (fun v =>
          { v with style := if vis then v.style ||| WS_VISIBLE
                            else andNot v.style WS_VISIBLE })) := by
  simp only [showWindowOS, hf, hl, if_true]

theorem showWindowOS_show (os : MockOS) (h : Nat) (w : WindowState)
    (hf : os.find h = some w) (hl : w.live = true) :
    showWindowOS os h true =
      ((w.style &&& WS_VISIBLE) != 0,
        os.upd h (fun v => { v with style := v.style ||| WS_VISIBLE })) := by
  simpa using showWindowOS_live os h w true hf hl

theorem setParentOS_refused (os : MockOS) (h newParent : Nat) (w : WindowState)
    (hf : os.find h = some w) (hl : w.live = true) (he : w.reparentError ≠ 0) :
    setParentOS os h newParent = (0, { os with lastError := w.reparentError }) := by
  have hb : (w.reparentError != 0) = true := by simpa using he
  simp only [setParentOS, hf, hl, hb, if_true]

theorem setParentOS_ok (os : MockOS) (h newParent : Nat) (w : WindowState)
    (hf : os.find h = some w) (hl : w.live = true) (he : w.reparentError = 0) :
    setParentOS os h newParent =
      (w.parent, os.upd h (fun v => { v with parent := newParent })) := by
  simp only [setParentOS, hf, hl, he, if_true]
  rfl

theorem setWindowPosOS_live (os : MockOS) (h : Nat) (x y cx cy : Int) (fl : SwpFlags)
    (w : WindowState) (hf : os.find h = some w) (hl : w.live = true) :
    setWindowPosOS os h x y cx cy fl =
      (true, os.upd h (fun v =>
        let l := if fl.noMove then v.rLeft else x
        let t := if fl.noMove then v.rTop else y
        let wd := if fl.noSize then v.rRight - v.rLeft else cx
        let ht := if fl.noSize then v.rBottom - v.rTop else cy
        { v with rLeft := l, rTop := t, rRight := l + wd, rBottom := t + ht,
                 style := if fl.showWin then v.style ||| WS_VISIBLE else v.style })) := by
  simp only [setWindowPosOS, hf, hl, if_true]

theorem getStyleOS_live (os : MockOS) (h : Nat) (w : WindowState)
    (hf : os.find h = some w) (hl : w.live = true) :
    getStyleOS os h = w.style := by
  simp only [getStyleOS, hf, hl, if_true]

theorem getExStyleOS_live (os : MockOS) (h : Nat) (w : WindowState)
    (hf : os.find h = some w) (hl : w.live = true) :
    getExStyleOS os h = w.exStyle := by
  simp only [getExStyleOS, hf, hl, if_true]

theorem getWindowRectOS_live (os : MockOS) (h : Nat) (w : WindowState)
    (hf : os.find h = some w) (hl : w.live = true) :
    getWindowRectOS os h = some (w.rLeft, w.rTop, w.rRight, w.rBottom) := by
  simp only [getWindowRectOS, hf, hl, if_true]

/-! ## Claim C10: show/hide reports the previous visibility as success -/

/-- Claim C10: for every live window, `ShowWindowNative`'s success flag is the
raw return of `::ShowWindow`, i.e. the window's *previous* visibility, not
whether the operation took effect; in particular, showing a currently hidden
live window yields `success = false` together with an error message even
though the window is made visible. -/
theorem showWindow_success_is_previous_visibility (os : MockOS) (hwnd : Nat)
    (w : WindowState) (hz : hwnd ≠ 0) (hf : os.find hwnd = some w)
    (hl : w.live = true) :
    (∀ vis, (showWindowNative os hwnd vis).res.success = ((w.style &&& WS_VISIBLE) != 0))
    ∧ (w.style &&& WS_VISIBLE = 0 →
        (showWindowNative os hwnd true).res.success = false
        ∧ (showWindowNative os hwnd true).res.error.isSome = true
        ∧ ∃ w', (showWindowNative os hwnd true).os.find hwnd = some w'
            ∧ w'.style &&& WS_VISIBLE ≠ 0) := by
  have hiw : isWindow os hwnd = true := isWindow_true_of os hwnd w hz hf hl
  constructor
  · intro vis
    simp only [showWindowNative, hiw, Bool.true_eq_false, if_false,
      showWindowOS_live os hwnd w vis hf hl]
    by_cases hv : ((w.style &&& WS_VISIBLE) != 0) = true
    · simp [hv, okResult]
    · have hv' : ((w.style &&& WS_VISIBLE) != 0) = false := by
        exact Bool.eq_false_iff.mpr hv
      simp [hv', errResult]
  · intro hhid
    have hv' : ((w.style &&& WS_VISIBLE) != 0) = false := by
      simp [hhid]
    simp only [showWindowNative, hiw, Bool.true_eq_false, if_false,
      showWindowOS_live os hwnd w true hf hl, hv', Bool.false_eq_true, if_false]
    refine ⟨rfl, rfl, ?_⟩
    refine ⟨_, find_upd_self os hwnd _ w hf hl, ?_⟩
    simp only [if_true]
    rw [lor_land_distrib]
    rw [show WS_VISIBLE &&& WS_VISIBLE = WS_VISIBLE from by decide, hhid]
    decide

/-! ## Claim C6: move preserves size -/

/-- Claim C6: for every live window, `MoveWindowNative` reads the window's
current rectangle, re-applies the same width and height, and succeeds; the
window's size after the call equals its size before the call and only its
position changes to the requested coordinates. -/
theorem moveWindow_preserves_size (os : MockOS) (hwnd : Nat) (x y : Int)
    (w : WindowState) (hz : hwnd ≠ 0) (hf : os.find hwnd = some w)
    (hl : w.live = true) :
    (moveWindowNative os hwnd x y).res.success = true
    ∧ ∃ w', (moveWindowNative os hwnd x y).os.find hwnd = some w'
        ∧ w'.rRight - w'.rLeft = w.rRight - w.rLeft
        ∧ w'.rBottom - w'.rTop = w.rBottom - w.rTop
        ∧ w'.rLeft = x ∧ w'.rTop = y := by
  have hiw : isWindow os hwnd = true := isWindow_true_of os hwnd w hz hf hl
  simp only [moveWindowNative, hiw, Bool.true_eq_false, if_false,
    getWindowRectOS_live os hwnd w hf hl,
    setWindowPosOS_live os hwnd x y (w.rRight - w.rLeft) (w.rBottom - w.rTop)
      ⟨true, false, false, true, false⟩ w hf hl]
  refine ⟨rfl, ⟨_, find_upd_self os hwnd _ w hf hl, ?_, ?_, rfl, rfl⟩⟩
  · simp
  · simp

/-! ## Claim C4: the two reparent-failure error messages -/

/-- Claim C4: when the reparent step of embed fails with the platform's
"invalid parameter" code 87, `EmbedWindow` fails with the named refusal
message; on any other reparent failure it fails with the generic
"Failed to set parent" message carrying the system error text. -/
theorem embed_reparent_failure_messages (os : MockOS) (hwnd parentHWND : Nat)
    (x y width height : Int) (w : WindowState)
    (hz : hwnd ≠ 0) (hf : os.find hwnd = some w) (hl : w.live = true)
    (he : w.reparentError ≠ 0) :
    (embedWindow os hwnd parentHWND x y width height).res.success = false
    ∧ (embedWindow os hwnd parentHWND x y width height).res.error =
        (if w.reparentError = 87
         then some "Application refuses window embedding (security restriction)"
         else some ("Failed to set parent: " ++ getLastErrorString w.reparentError)) := by
  have hiw : isWindow os hwnd = true := isWindow_true_of os hwnd w hz hf hl
  have hf1 : (os.upd hwnd (fun v =>
      { v with style := v.style ||| WS_VISIBLE })).find hwnd =
      some { w with style := w.style ||| WS_VISIBLE } :=
    find_upd_self os hwnd _ w hf hl
  have hsp := setParentOS_refused
    (os.upd hwnd (fun v => { v with style := v.style ||| WS_VISIBLE }))
    hwnd parentHWND { w with style := w.style ||| WS_VISIBLE } hf1 hl he
  simp only [embedWindow, hiw, Bool.true_eq_false, if_false,
    showWindowOS_show os hwnd w hf hl, hsp]
  by_cases h87 : w.reparentError = 87
  · simp [he, h87, errResult]
  · simp [he, h87, errResult]

/-! ## The successful embed run, evaluated symbolically -/

/-- Running `EmbedWindow` on a live, non-refusing window with a clean
last-error succeeds and leaves the window with the embed style (computed from
the post-`ShowWindow` style), the cleared extended style, the container as
parent, and the requested rectangle. -/
theorem embedWindow_success_run (os : MockOS) (hwnd parentHWND : Nat)
    (x y width height : Int) (w : WindowState)
    (hz : hwnd ≠ 0) (hf : os.find hwnd = some w) (hl : w.live = true)
    (hnr : w.reparentError = 0) (hle : os.lastError = 0) :
    (embedWindow os hwnd parentHWND x y width height).res = okResult
    ∧ (embedWindow os hwnd parentHWND x y width height).os.lastError = 0
    ∧ (embedWindow os hwnd parentHWND x y width height).os.find hwnd = some
        { w with
          style := ((embedStyle (w.style ||| WS_VISIBLE) &&& mask32) ||| WS_VISIBLE)
            ||| WS_VISIBLE
          exStyle := embedExStyle w.exStyle &&& mask32
          parent := parentHWND
          rLeft := x
          rTop := y
          rRight := x + width
          rBottom := y + height } := by
  have hiw : isWindow os hwnd = true := isWindow_true_of os hwnd w hz hf hl
  set f1 : WindowState → WindowState :=
    fun v => { v with style := v.style ||| WS_VISIBLE } with hf1def
  set os1 := os.upd hwnd f1 with hos1
  set w1 : WindowState := { w with style := w.style ||| WS_VISIBLE } with hw1
  have hfind1 : os1.find hwnd = some w1 := find_upd_self os hwnd f1 w hf hl
  have hsp := setParentOS_ok os1 hwnd parentHWND w1 hfind1 hl hnr
  set f2 : WindowState → WindowState :=
    fun v => { v with parent := parentHWND } with hf2def
  set os2 := os1.upd hwnd f2 with hos2
  set w2 : WindowState :=
    { w with style := w.style ||| WS_VISIBLE, parent := parentHWND } with hw2
  have hfind2 : os2.find hwnd = some w2 := by
    have := find_upd_self os1 hwnd f2 w1 hfind1 hl
    simpa [hw1, hw2, hf2def] using this
  have hiw2 : isWindow os2 hwnd = true := isWindow_true_of os2 hwnd w2 hz hfind2 hl
  have hle2 : os2.lastError = 0 := by
    simp [hos2, hos1, upd_lastError, hle]
  have hsty : getStyleOS os2 hwnd = w.style ||| WS_VISIBLE :=
    getStyleOS_live os2 hwnd w2 hfind2 hl
  have hexsty : getExStyleOS os2 hwnd = w.exStyle :=
    getExStyleOS_live os2 hwnd w2 hfind2 hl
  set f3 : WindowState → WindowState :=
    fun v => { v with style := embedStyle (w.style ||| WS_VISIBLE) &&& mask32 } with hf3def
  set os3 := os2.upd hwnd f3 with hos3
  set w3 : WindowState :=
    { w with style := embedStyle (w.style ||| WS_VISIBLE) &&& mask32,
             parent := parentHWND } with hw3
  have hfind3 : os3.find hwnd = some w3 := by
    have := find_upd_self os2 hwnd f3 w2 hfind2 hl
    simpa [hw2, hw3, hf3def] using this
  set f4 : WindowState → WindowState :=
    fun v => { v with exStyle := embedExStyle w.exStyle &&& mask32 } with hf4def
  set os4 := os3.upd hwnd f4 with hos4
  set w4 : WindowState :=
    { w with style := embedStyle (w.style ||| WS_VISIBLE) &&& mask32,
             exStyle := embedExStyle w.exStyle &&& mask32,
             parent := parentHWND } with hw4
  have hfind4 : os4.find hwnd = some w4 := by
    have := find_upd_self os3 hwnd f4 w3 hfind3 hl
    simpa [hw3, hw4, hf4def] using this
  have hiw4 : isWindow os4 hwnd = true := isWindow_true_of os4 hwnd w4 hz hfind4 hl
  have hwp := setWindowPosOS_live os4 hwnd x y width height
    ⟨false, false, true, true, true⟩ w4 hfind4 hl
  set f5 : WindowState → WindowState :=
    fun v => { v with rLeft := x, rTop := y, rRight := x + width, rBottom := y + height,
                      style := v.style ||| WS_VISIBLE } with hf5def
  set os5 := os4.upd hwnd f5 with hos5
  set w5 : WindowState :=
    { w with style := (embedStyle (w.style ||| WS_VISIBLE) &&& mask32) ||| WS_VISIBLE,
             exStyle := embedExStyle w.exStyle &&& mask32,
             parent := parentHWND,
             rLeft := x, rTop := y, rRight := x + width, rBottom := y + height } with hw5
  have hwp' : setWindowPosOS os4 hwnd x y width height ⟨false, false, true, true, true⟩
      = (true, os5) := by
    rw [hwp]
    simp [hos5, hf5def]
  have hfind5 : os5.find hwnd = some w5 := by
    have := find_upd_self os4 hwnd f5 w4 hfind4 hl
    simpa [hw4, hw5, hf5def] using this
  have hiw5 : isWindow os5 hwnd = true := isWindow_true_of os5 hwnd w5 hz hfind5 hl
  have hsh5 := showWindowOS_show os5 hwnd w5 hfind5 hl
  have hfind6 : (os5.upd hwnd f1).find hwnd = some
      { w with
        style := ((embedStyle (w.style ||| WS_VISIBLE) &&& mask32) ||| WS_VISIBLE)
          ||| WS_VISIBLE
        exStyle := embedExStyle w.exStyle &&& mask32
        parent := parentHWND
        rLeft := x
        rTop := y
        rRight := x + width
        rBottom := y + height } := by
    have := find_upd_self os5 hwnd f1 w5 hfind5 hl
    simpa [hw5, hf1def] using this
  simp only [embedWindow, hiw, Bool.true_eq_false, if_false,
    showWindowOS_show os hwnd w hf hl, ← hos1, hsp, ← hos2, hle2,
    hiw2, hsty, hexsty, setStyleOS, setExStyleOS, ← hf3def, ← hos3,
    ← hf4def, ← hos4, hiw4, hwp', hiw5, hsh5, ← hf1def]
  simp [hfind6, upd_lastError, hos5, hos4, hos3, hle2]

/-! ## The detach run, evaluated symbolically -/

/-- Running `UnparentWindow` on a live, non-refusing window with a clean
last-error succeeds, stores the detach style, leaves the extended style
untouched and clears the parent. -/
theorem unparentWindow_run (os : MockOS) (hwnd : Nat) (w : WindowState)
    (hz : hwnd ≠ 0) (hf : os.find hwnd = some w) (hl : w.live = true)
    (hnr : w.reparentError = 0) (hle : os.lastError = 0) :
    (unparentWindow os hwnd).res = okResult
    ∧ ∃ w', (unparentWindow os hwnd).os.find hwnd = some w'
        ∧ w'.style = detachStyle w.style &&& mask32
        ∧ w'.exStyle = w.exStyle
        ∧ w'.parent = 0 := by
  have hiw : isWindow os hwnd = true := isWindow_true_of os hwnd w hz hf hl
  have hsty : getStyleOS os hwnd = w.style := getStyleOS_live os hwnd w hf hl
  set f1 : WindowState → WindowState :=
    fun v => { v with style := detachStyle w.style &&& mask32 } with hf1d
  set os1 := os.upd hwnd f1 with hos1
  set w1 : WindowState := { w with style := detachStyle w.style &&& mask32 } with hw1d
  have hfind1 : os1.find hwnd = some w1 := find_upd_self os hwnd f1 w hf hl
  have hsp := setParentOS_ok os1 hwnd 0 w1 hfind1 hl hnr
  set f2 : WindowState → WindowState := fun v => { v with parent := 0 } with hf2d
  set os2 := os1.upd hwnd f2 with hos2
  set w2 : WindowState :=
    { w with style := detachStyle w.style &&& mask32, parent := 0 } with hw2d
  have hfind2 : os2.find hwnd = some w2 := by
    have := find_upd_self os1 hwnd f2 w1 hfind1 hl
    simpa [hw1d, hw2d, hf2d] using this
  have hwp := setWindowPosOS_live os2 hwnd 0 0 0 0 ⟨true, true, true, false, true⟩ w2 hfind2 hl
  set f3 : WindowState → WindowState :=
    fun v => { v with rLeft := v.rLeft, rTop := v.rTop,
                      rRight := v.rLeft + (v.rRight - v.rLeft),
                      rBottom := v.rTop + (v.rBottom - v.rTop) } with hf3d
  set os3 := os2.upd hwnd f3 with hos3
  have hwp' : setWindowPosOS os2 hwnd 0 0 0 0 ⟨true, true, true, false, true⟩
      = (true, os3) := by
    rw [hwp]
    simp [hos3, hf3d]
  have hfind3 : os3.find hwnd = some (f3 w2) :=
    find_upd_self os2 hwnd f3 w2 hfind2 hl
  have hle3 : os3.lastError = 0 := by
    simp [hos3, hos2, hos1, upd_lastError, hle]
  simp only [unparentWindow, hiw, Bool.true_eq_false, if_false, hsty,
    setStyleOS, ← hf1d, ← hos1, hsp, ← hos2, hwp', hle3]
  refine ⟨by simp, ⟨f3 w2, by simpa using hfind3, ?_, ?_, ?_⟩⟩
  · simp [hf3d, hw2d]
  · simp [hf3d, hw2d]
  · simp [hf3d, hw2d]

/-! ## Style bound and absorption helpers for the round-trip theorem -/

theorem embedStyle_lt (s : Nat) : embedStyle s < 2 ^ 32 := by
  have hK : s &&& (mask32 ^^^
      (WS_THICKFRAME ||| WS_MINIMIZEBOX ||| WS_MAXIMIZEBOX ||| WS_SYSMENU ||| WS_POPUP))
      < 2 ^ 32 :=
    Nat.lt_of_le_of_lt Nat.and_le_right (by decide)
  unfold embedStyle andNot
  by_cases h : s &&& WS_CAPTION ≠ 0 <;>
    simp only [h, if_pos, if_neg, if_true, if_false, ite_not] <;>
    · repeat' apply Nat.or_lt_two_pow
      all_goals first
        | exact hK
        | decide

/-- The embed style always carries the `WS_VISIBLE` bit. -/
theorem embedStyle_land_visible (s : Nat) : embedStyle s &&& WS_VISIBLE = WS_VISIBLE := by
  have hv : (WS_VISIBLE : Nat) = 2 ^ 28 := by decide
  unfold embedStyle
  by_cases h : s &&& WS_CAPTION ≠ 0 <;>
    simp only [h, if_pos, if_neg, if_true, if_false, ite_not] <;>
    · apply Nat.eq_of_testBit_eq
      intro i
      rw [hv]
      simp only [Nat.testBit_land, Nat.testBit_lor, Nat.testBit_two_pow]
      by_cases hi : 28 = i
      · subst hi
        simp
      · simp [hi]

theorem embedStyle_or_visible (s : Nat) : embedStyle s ||| WS_VISIBLE = embedStyle s :=
  lor_absorb _ _ (embedStyle_land_visible s)

/-! ## Claim C1: embed followed by detach -/

/-- Counterexample to claim C1 as stated: a live `WS_POPUP ||| WS_VISIBLE`
window (style `0x90000000`) is successfully embedded and detached, but its
final style is `0x10CF0000`, not the pre-embed snapshot `0x90000000`: detach
does not restore the popup bit and force-adds the frame bits.  So "for every
live window on which embed succeeds" the style is *not* restored. -/
theorem embed_detach_roundtrip_counterexample :
    (embedWindow
        ⟨[(5, ⟨true, 0x90000000, 0, 0, "p", "PopupClass", 7, 0, 0, 100, 100, 0, none⟩)],
          0, [7]⟩ 5 2 0 0 300 200).res.success = true
    ∧ (unparentWindow
        (embedWindow
          ⟨[(5, ⟨true, 0x90000000, 0, 0, "p", "PopupClass", 7, 0, 0, 100, 100, 0, none⟩)],
            0, [7]⟩ 5 2 0 0 300 200).os 5).res.success = true
    ∧ ((unparentWindow
        (embedWindow
          ⟨[(5, ⟨true, 0x90000000, 0, 0, "p", "PopupClass", 7, 0, 0, 100, 100, 0, none⟩)],
            0, [7]⟩ 5 2 0 0 300 200).os 5).os.find 5).map WindowState.style
        = some 0x10CF0000
    ∧ (0x10CF0000 : Nat) ≠ 0x90000000 := by
  refine ⟨by decide, by decide, by decide, by decide⟩

/-- Claim C1 (amended): for every live window on which embed succeeds *whose
pre-embed style carries the standard overlapped-window bits (visible, caption,
resizable frame, minimize box, maximize box, system menu) and carries neither
the popup nor the child bit* — the cooperative synthetic target of the spec —
calling detach immediately after embed restores the window's style bits to
exactly the pre-embed snapshot and sets its parent to none (top-level).
(The counterexample shows the restriction is necessary: a popup-styled window
loses its popup bit and gains the frame bits.) -/
theorem embed_detach_roundtrip_standard (os : MockOS) (hwnd parentHWND : Nat)
    (x y width height : Int) (w : WindowState)
    (hz : hwnd ≠ 0) (hf : os.find hwnd = some w) (hl : w.live = true)
    (hnr : w.reparentError = 0) (hle : os.lastError = 0)
    (hstd : w.style &&& standardBits = standardBits)
    (hnpc : w.style &&& (WS_POPUP ||| WS_CHILD) = 0)
    (h32 : w.style < 2 ^ 32) :
    (embedWindow os hwnd parentHWND x y width height).res.success = true
    ∧ (unparentWindow (embedWindow os hwnd parentHWND x y width height).os hwnd).res.success
        = true
    ∧ ∃ w', (unparentWindow
          (embedWindow os hwnd parentHWND x y width height).os hwnd).os.find hwnd = some w'
        ∧ w'.style = w.style
        ∧ w'.parent = 0 := by
  obtain ⟨hres, hlerr, hfind⟩ :=
    embedWindow_success_run os hwnd parentHWND x y width height w hz hf hl hnr hle
  have hv : w.style &&& WS_VISIBLE = WS_VISIBLE :=
    land_submask w.style standardBits WS_VISIBLE hstd (by decide)
  have habsv : w.style ||| WS_VISIBLE = w.style := lor_absorb _ _ hv
  have hstyle6 :
      ((embedStyle (w.style ||| WS_VISIBLE) &&& mask32) ||| WS_VISIBLE) ||| WS_VISIBLE
        = embedStyle w.style := by
    rw [habsv, land_mask32 _ (embedStyle_lt _), embedStyle_or_visible,
      embedStyle_or_visible]
  rw [hstyle6] at hfind
  have hun := unparentWindow_run
    (embedWindow os hwnd parentHWND x y width height).os hwnd _ hz hfind hl hnr hlerr
  obtain ⟨hures, w', hufind, husty, _, hupar⟩ := hun
  refine ⟨by rw [hres]; rfl, by rw [hures]; rfl, ⟨w', hufind, ?_, hupar⟩⟩
  rw [husty]
  show detachStyle (embedStyle w.style) &&& mask32 = w.style
  rw [detach_embed_style w.style hstd hnpc h32, land_mask32 _ h32]

/-- Witness for the amended C1: a concrete standard overlapped visible window
round-trips exactly. -/
theorem embed_detach_roundtrip_standard_witness :
    (embedWindow
        ⟨[(6, ⟨true, 0x10CF0000, 0x100, 0, "app", "AppClass", 9, 0, 0, 640, 480, 0, none⟩)],
          0, [9]⟩ 6 3 10 20 300 200).res.success = true
    ∧ (unparentWindow
        (embedWindow
          ⟨[(6, ⟨true, 0x10CF0000, 0x100, 0, "app", "AppClass", 9, 0, 0, 640, 480, 0, none⟩)],
            0, [9]⟩ 6 3 10 20 300 200).os 6).res.success = true
    ∧ ∃ w', (unparentWindow
          (embedWindow
            ⟨[(6, ⟨true, 0x10CF0000, 0x100, 0, "app", "AppClass", 9, 0, 0, 640, 480, 0, none⟩)],
              0, [9]⟩ 6 3 10 20 300 200).os 6).os.find 6 = some w'
        ∧ w'.style = 0x10CF0000
        ∧ w'.parent = 0 :=
  embed_detach_roundtrip_standard
    ⟨[(6, ⟨true, 0x10CF0000, 0x100, 0, "app", "AppClass", 9, 0, 0, 640, 480, 0, none⟩)],
      0, [9]⟩ 6 3 10 20 300 200
    ⟨true, 0x10CF0000, 0x100, 0, "app", "AppClass", 9, 0, 0, 640, 480, 0, none⟩
    (by decide) (by decide) (by decide) (by decide) (by decide)
    (by decide) (by decide) (by decide)

/-! ## Claim C9: the extended-style rewrite -/

theorem embedExStyle_lt (e : Nat) : embedExStyle e < 2 ^ 32 := by
  unfold embedExStyle andNot
  exact Nat.lt_of_le_of_lt Nat.and_le_right (by decide)

/-- Bit-level characterisation of `embedExStyle`: bits 0 (dialog-modal-frame),
8 (window-edge), 9 (client-edge) and 17 (static-edge) are cleared; every other
bit is unchanged. -/
theorem embedExStyle_testBit (e : Nat) (he : e < 2 ^ 32) (i : Nat) :
    (embedExStyle e).testBit i =
      if i = 0 ∨ i = 8 ∨ i = 9 ∨ i = 17 then false else e.testBit i := by
  have hmask : (WS_EX_DLGMODALFRAME ||| WS_EX_WINDOWEDGE ||| WS_EX_CLIENTEDGE
      ||| WS_EX_STATICEDGE : Nat) = 2 ^ 0 ||| 2 ^ 8 ||| 2 ^ 9 ||| 2 ^ 17 := by decide
  have hm32 : (mask32 : Nat) = 2 ^ 32 - 1 := by decide
  unfold embedExStyle andNot
  rw [hmask, hm32]
  by_cases hmem : i = 0 ∨ i = 8 ∨ i = 9 ∨ i = 17
  · rw [if_pos hmem, Nat.testBit_land]
    rcases hmem with h | h | h | h <;> subst h <;>
      rw [show Nat.testBit ((2 ^ 32 - 1) ^^^ (2 ^ 0 ||| 2 ^ 8 ||| 2 ^ 9 ||| 2 ^ 17)) _
          = false from by decide] <;>
      exact Bool.and_false _
  · rw [if_neg hmem, Nat.testBit_land, Nat.testBit_xor]
    push_neg at hmem
    obtain ⟨h0, h8, h9, h17⟩ := hmem
    have hts : Nat.testBit (2 ^ 0 ||| 2 ^ 8 ||| 2 ^ 9 ||| 2 ^ 17) i = false := by
      simp only [Nat.testBit_lor, Nat.testBit_two_pow]
      simp [Ne.symm h0, Ne.symm h8, Ne.symm h9, Ne.symm h17]
    by_cases hlt : i < 32
    · have ht1 : Nat.testBit (2 ^ 32 - 1) i = true := by
        rw [Nat.testBit_two_pow_sub_one]
        exact decide_eq_true hlt
      rw [ht1, hts]
      simp
    · have ht1 : Nat.testBit (2 ^ 32 - 1) i = false := by
        rw [Nat.testBit_two_pow_sub_one]
        simpa using hlt
      have hei : e.testBit i = false :=
        Nat.testBit_lt_two_pow
          (lt_of_lt_of_le he (Nat.pow_le_pow_right (by norm_num) (Nat.le_of_not_lt hlt)))
      rw [ht1, hts, hei]
      rfl

/-- Claim C9: on a successful embed run, the window's extended style is
rewritten by clearing exactly the dialog-modal-frame (bit 0), window-edge
(bit 8), client-edge (bit 9) and static-edge (bit 17) bits while every other
extended-style bit is unchanged — and a detach immediately afterwards leaves
the extended style untouched (it does not restore the cleared bits). -/
theorem embed_exstyle_mutation (os : MockOS) (hwnd parentHWND : Nat)
    (x y width height : Int) (w : WindowState)
    (hz : hwnd ≠ 0) (hf : os.find hwnd = some w) (hl : w.live = true)
    (hnr : w.reparentError = 0) (hle : os.lastError = 0)
    (hex32 : w.exStyle < 2 ^ 32) :
    (embedWindow os hwnd parentHWND x y width height).res.success = true
    ∧ ∃ w6, (embedWindow os hwnd parentHWND x y width height).os.find hwnd = some w6
        ∧ w6.exStyle = embedExStyle w.exStyle
        ∧ (∀ i, w6.exStyle.testBit i =
            if i = 0 ∨ i = 8 ∨ i = 9 ∨ i = 17 then false else w.exStyle.testBit i)
        ∧ ∃ w7, (unparentWindow
              (embedWindow os hwnd parentHWND x y width height).os hwnd).os.find hwnd
              = some w7
            ∧ w7.exStyle = w6.exStyle := by
  obtain ⟨hres, hlerr, hfind⟩ :=
    embedWindow_success_run os hwnd parentHWND x y width height w hz hf hl hnr hle
  have hm : embedExStyle w.exStyle &&& mask32 = embedExStyle w.exStyle :=
    land_mask32 _ (embedExStyle_lt _)
  rw [hm] at hfind
  obtain ⟨-, w7, hufind, -, huex, -⟩ := unparentWindow_run
    (embedWindow os hwnd parentHWND x y width height).os hwnd _ hz hfind hl hnr hlerr
  refine ⟨by rw [hres]; rfl, ⟨_, hfind, rfl, ?_, ⟨w7, hufind, by rw [huex]⟩⟩⟩
  intro i
  exact embedExStyle_testBit w.exStyle hex32 i

/-- Witness for C9: a concrete window whose extended style
`WS_EX_CLIENTEDGE ||| WS_EX_TOOLWINDOW` (`0x280`) loses the client-edge bit
and keeps the tool-window bit. -/
theorem embed_exstyle_mutation_witness :
    (embedWindow
        ⟨[(8, ⟨true, 0x10CF0000, 0x280, 0, "x", "XClass", 4, 0, 0, 50, 50, 0, none⟩)],
          0, [4]⟩ 8 2 0 0 64 64).res.success = true
    ∧ ∃ w6, (embedWindow
          ⟨[(8, ⟨true, 0x10CF0000, 0x280, 0, "x", "XClass", 4, 0, 0, 50, 50, 0, none⟩)],
            0, [4]⟩ 8 2 0 0 64 64).os.find 8 = some w6
        ∧ w6.exStyle = embedExStyle 0x280
        ∧ (∀ i, w6.exStyle.testBit i =
            if i = 0 ∨ i = 8 ∨ i = 9 ∨ i = 17 then false
            else (0x280 : Nat).testBit i)
        ∧ ∃ w7, (unparentWindow
              (embedWindow
                ⟨[(8, ⟨true, 0x10CF0000, 0x280, 0, "x", "XClass", 4, 0, 0, 50, 50, 0, none⟩)],
                  0, [4]⟩ 8 2 0 0 64 64).os 8).os.find 8 = some w7
            ∧ w7.exStyle = w6.exStyle :=
  embed_exstyle_mutation
    ⟨[(8, ⟨true, 0x10CF0000, 0x280, 0, "x", "XClass", 4, 0, 0, 50, 50, 0, none⟩)], 0, [4]⟩
    8 2 0 0 64 64
    ⟨true, 0x10CF0000, 0x280, 0, "x", "XClass", 4, 0, 0, 50, 50, 0, none⟩
    (by decide) (by decide) (by decide) (by decide) (by decide) (by decide)

/-! ## Claim C3: the ranked main-window heuristic -/

/-- Rank-1 criterion exactly as the specification words it: belongs to the
process, is not a shell/system class, is visible, has no parent, and has
non-empty title text or a caption/border style bit. -/
def rank1Spec (processId : Nat) (p : Nat × WindowState) : Bool :=
  p.2.pid == processId && !(shellClass p.2.className) &&
  ((p.2.style &&& WS_VISIBLE) != 0 && p.2.parent == 0 &&
    (decide (p.2.title.length > 0) || (p.2.style &&& WS_CAPTION) != 0
      || (p.2.style &&& WS_BORDER) != 0))

/-- Fallback criterion as the specification words it: belongs to the process,
is not a shell/system class, and is not a tool window. -/
def fallbackSpec (processId : Nat) (p : Nat × WindowState) : Bool :=
  p.2.pid == processId && !(shellClass p.2.className) &&
  (p.2.exStyle &&& WS_EX_TOOLWINDOW) == 0

/-- The resolver as the specification describes it: the first rank-1 match if
any, else the first fallback candidate, else failure. -/
def resolveMainWindowSpec (processId : Nat) (ws : List (Nat × WindowState)) :
    Option Nat :=
  match ws.find? (rank1Spec processId) with
  | some p => some p.1
  | none =>
    match ws.find? (fallbackSpec processId) with
    | some p => some p.1
    | none => none

/-- A raw handle as an optional result (`0` = `NULL` = failure). -/
def toOpt (h : Nat) : Option Nat := if h = 0 then none else some h

theorem findMainWindowLoop_spec (processId : Nat) (ws : List (Nat × WindowState))
    (hlive : ∀ p ∈ ws, p.2.live = true) (hnz : ∀ p ∈ ws, p.1 ≠ 0) :
    ∀ best, findMainWindowLoop processId ws best =
      (match ws.find? (rank1Spec processId) with
       | some p => p.1
       | none =>
         if best ≠ 0 then best
         else
           match ws.find? (fallbackSpec processId) with
           | some p => p.1
           | none => 0) := by
  induction ws with
  | nil =>
    intro best
    by_cases hb : best = 0 <;> simp [findMainWindowLoop, hb]
  | cons p rest ih =>
    have hlive' : ∀ q ∈ rest, q.2.live = true :=
      fun q hq => hlive q (List.mem_cons_of_mem _ hq)
    have hnz' : ∀ q ∈ rest, q.1 ≠ 0 :=
      fun q hq => hnz q (List.mem_cons_of_mem _ hq)
    have hl : p.2.live = true := hlive p (List.mem_cons_self _ _)
    have hz : p.1 ≠ 0 := hnz p (List.mem_cons_self _ _)
    have ihb := ih hlive' hnz'
    intro best
    obtain ⟨h, w⟩ := p
    simp only at hl hz
    by_cases hpid : (w.pid == processId) = true
    · by_cases hsh : shellClass w.className = true
      · -- shell class: skipped by the loop and by both predicates
        have hr : rank1Spec processId (h, w) = false := by
          simp [rank1Spec, hsh]
        have hfb : fallbackSpec processId (h, w) = false := by
          simp [fallbackSpec, hsh]
        simp only [findMainWindowLoop, hpid, hsh, if_true, if_pos]
        rw [ihb best, List.find?_cons_of_neg _ (by simp [hr]),
          List.find?_cons_of_neg _ (by simp [hfb])]
      · have hsh' : shellClass w.className = false := Bool.eq_false_iff.mpr hsh
        by_cases hc1 : ((w.style &&& WS_VISIBLE) != 0 && w.parent == 0 &&
            (decide (w.title.length > 0) || (w.style &&& WS_CAPTION) != 0
              || (w.style &&& WS_BORDER) != 0)) = true
        · -- rank-1 hit: loop stops with this handle
          have hr : rank1Spec processId (h, w) = true := by
            simp only [rank1Spec]
            simp only [hpid, hsh', Bool.not_false, Bool.true_and, Bool.and_true]
            exact hc1
          have hloop : findMainWindowLoop processId ((h, w) :: rest) best = h := by
            simp only [findMainWindowLoop, hpid, hsh', if_true, Bool.false_eq_true,
              if_false, isVisibleW, hl, Bool.true_and]
            rw [if_pos hc1]
          rw [hloop, List.find?_cons_of_pos _ hr]
        · have hc1' := Bool.eq_false_iff.mpr hc1
          have hr : rank1Spec processId (h, w) = false := by
            simp only [rank1Spec]
            simp only [hpid, hsh', Bool.not_false, Bool.true_and, Bool.and_true]
            exact hc1'
          have hloop : findMainWindowLoop processId ((h, w) :: rest) best =
              findMainWindowLoop processId rest
                (if best == 0 && w.live && (w.exStyle &&& WS_EX_TOOLWINDOW) == 0
                 then h else best) := by
            simp only [findMainWindowLoop, hpid, hsh', if_true, Bool.false_eq_true,
              if_false, isVisibleW, hl, Bool.true_and]
            rw [if_neg (by simp [hc1'])]
          rw [hloop, List.find?_cons_of_neg _ (by simp [hr])]
          by_cases hb : best = 0
          · subst hb
            by_cases htool : ((w.exStyle &&& WS_EX_TOOLWINDOW) == 0) = true
            · -- fallback candidate: remembered
              have hfb : fallbackSpec processId (h, w) = true := by
                simp [fallbackSpec, hpid, hsh', htool]
              have hcond : ((0 : Nat) == 0 && w.live
                  && (w.exStyle &&& WS_EX_TOOLWINDOW) == 0) = true := by
                simp [hl, htool]
              rw [hcond, if_pos rfl, ihb h, List.find?_cons_of_pos _ hfb]
              simp [hz]
            · have htool' := Bool.eq_false_iff.mpr htool
              have hfb : fallbackSpec processId (h, w) = false := by
                simp [fallbackSpec, htool']
              have hcond : ((0 : Nat) == 0 && w.live
                  && (w.exStyle &&& WS_EX_TOOLWINDOW) == 0) = false := by
                simp [htool']
              rw [hcond]
              rw [if_neg (by simp)]
              rw [ihb 0]
              conv_rhs => rw [List.find?_cons_of_neg _ (by simp [hfb])]
          · have hcond : (best == 0 && w.live
                && (w.exStyle &&& WS_EX_TOOLWINDOW) == 0) = false := by
              simp [hb]
            rw [hcond, if_neg (by simp), ihb best]
            simp [hb]
    · -- window of another process: skipped everywhere
      have hpid' : (w.pid == processId) = false := Bool.eq_false_iff.mpr hpid
      have hr : rank1Spec processId (h, w) = false := by
        simp [rank1Spec, hpid']
      have hfb : fallbackSpec processId (h, w) = false := by
        simp [fallbackSpec, hpid']
      simp only [findMainWindowLoop, hpid', Bool.false_eq_true, if_false]
      rw [ihb best, List.find?_cons_of_neg _ (by simp [hr]),
        List.find?_cons_of_neg _ (by simp [hfb])]

/-- Claim C3: `FindMainWindow` enumerates the process's windows in order,
unconditionally excludes the known shell/system window classes, immediately
selects (stopping the walk) the first window that is visible, has no parent,
and has non-empty title text or a caption/border style bit; otherwise it
remembers the first non-tool-window of the process as a fallback; it returns
the rank-1 match if found, else the fallback, else failure.  Stated as
equality with the specification's ranked resolver over any enumeration of
live windows with non-null handles. -/
theorem findMainWindow_matches_ranked_spec (os : MockOS) (processId : Nat)
    (hlive : ∀ p ∈ os.windows, p.2.live = true)
    (hnz : ∀ p ∈ os.windows, p.1 ≠ 0) :
    toOpt (findMainWindow os processId) = resolveMainWindowSpec processId os.windows := by
  rw [findMainWindow, findMainWindowLoop_spec processId os.windows hlive hnz 0]
  cases hr : os.windows.find? (rank1Spec processId) with
  | some p =>
    have hp : p.1 ≠ 0 := hnz p (List.mem_of_find?_eq_some hr)
    simp [resolveMainWindowSpec, hr, toOpt, hp]
  | none =>
    cases hfb : os.windows.find? (fallbackSpec processId) with
    | some p =>
      have hp : p.1 ≠ 0 := hnz p (List.mem_of_find?_eq_some hfb)
      simp [resolveMainWindowSpec, hr, hfb, toOpt, hp]
    | none =>
      simp [resolveMainWindowSpec, hr, hfb, toOpt]

/-- Witness for C3: an enumeration holding a shell-class window of the target
process, a tool window, an invisible fallback candidate and a titled visible
rank-1 window, in that order. -/
theorem findMainWindow_matches_ranked_spec_witness :
    toOpt (findMainWindow
      ⟨[(3, ⟨true, 0x10CF0000, 0, 0, "", "Shell_TrayWnd", 2, 0, 0, 9, 9, 0, none⟩),
        (4, ⟨true, 0x90000000, 0x80, 0, "", "ToolClass", 2, 0, 0, 9, 9, 0, none⟩),
        (5, ⟨true, 0x00000000, 0, 0, "", "SplashClass", 2, 0, 0, 9, 9, 0, none⟩),
        (6, ⟨true, 0x10CF0000, 0, 0, "Main", "MainClass", 2, 0, 0, 9, 9, 0, none⟩)],
        0, [2]⟩ 2) =
    resolveMainWindowSpec 2
      [(3, ⟨true, 0x10CF0000, 0, 0, "", "Shell_TrayWnd", 2, 0, 0, 9, 9, 0, none⟩),
       (4, ⟨true, 0x90000000, 0x80, 0, "", "ToolClass", 2, 0, 0, 9, 9, 0, none⟩),
       (5, ⟨true, 0x00000000, 0, 0, "", "SplashClass", 2, 0, 0, 9, 9, 0, none⟩),
       (6, ⟨true, 0x10CF0000, 0, 0, "Main", "MainClass", 2, 0, 0, 9, 9, 0, none⟩)] :=
  findMainWindow_matches_ranked_spec
    ⟨[(3, ⟨true, 0x10CF0000, 0, 0, "", "Shell_TrayWnd", 2, 0, 0, 9, 9, 0, none⟩),
      (4, ⟨true, 0x90000000, 0x80, 0, "", "ToolClass", 2, 0, 0, 9, 9, 0, none⟩),
      (5, ⟨true, 0x00000000, 0, 0, "", "SplashClass", 2, 0, 0, 9, 9, 0, none⟩),
      (6, ⟨true, 0x10CF0000, 0, 0, "Main", "MainClass", 2, 0, 0, 9, 9, 0, none⟩)],
      0, [2]⟩ 2 (by decide) (by decide)

/-! ## Claim C8: no stale handles from the resolver -/

theorem findMainWindowLoop_dead (processId : Nat) (ws : List (Nat × WindowState))
    (hdead : ∀ p ∈ ws, p.2.pid = processId → p.2.live = false) :
    findMainWindowLoop processId ws 0 = 0 := by
  induction ws with
  | nil => rfl
  | cons p rest ih =>
    have ih' := ih (fun q hq => hdead q (List.mem_cons_of_mem _ hq))
    obtain ⟨h, w⟩ := p
    have hd : w.pid = processId → w.live = false :=
      hdead (h, w) (List.mem_cons_self _ _)
    by_cases hpid : (w.pid == processId) = true
    · have hw : w.live = false := hd (by simpa using hpid)
      by_cases hsh : shellClass w.className = true
      · simp only [findMainWindowLoop, hpid, hsh, if_true]
        exact ih'
      · have hsh' : shellClass w.className = false := Bool.eq_false_iff.mpr hsh
        have hc1 : (isVisibleW w && w.parent == 0 &&
            (decide (w.title.length > 0) || (w.style &&& WS_CAPTION) != 0
              || (w.style &&& WS_BORDER) != 0)) = false := by
          simp [isVisibleW, hw]
        have hcond : ((0 : Nat) == 0 && w.live
            && (w.exStyle &&& WS_EX_TOOLWINDOW) == 0) = false := by
          simp [hw]
        simp only [findMainWindowLoop, hpid, hsh', if_true, Bool.false_eq_true, if_false]
        rw [if_neg (by simp [hc1]), hcond]
        simpa using ih'
    · have hpid' : (w.pid == processId) = false := Bool.eq_false_iff.mpr hpid
      simp only [findMainWindowLoop, hpid', Bool.false_eq_true, if_false]
      exact ih'

/-- Claim C8: for every process owning no live window, `GetMainWindowAPI`
returns failure with no handle; and whenever it does return a handle, that
handle is a live window at the time of return (never stale or guessed). -/
theorem getMainWindow_no_stale_handle (os : MockOS) (processId : Nat) :
    ((∀ p ∈ os.windows, p.2.pid = processId → p.2.live = false) →
      (getMainWindowAPI os processId).success = false
      ∧ (getMainWindowAPI os processId).hwnd = none)
    ∧ (∀ h, (getMainWindowAPI os processId).hwnd = some h → isWindow os h = true) := by
  constructor
  · intro hdead
    have h0 : findMainWindow os processId = 0 :=
      findMainWindowLoop_dead processId os.windows hdead
    constructor <;> simp [getMainWindowAPI, h0, okResult]
  · intro h hh
    unfold getMainWindowAPI at hh
    by_cases hcond : (findMainWindow os processId != 0
        && isWindow os (findMainWindow os processId)) = true
    · rw [if_pos hcond] at hh
      have hfm : findMainWindow os processId = h := by
        simpa [okResult] using hh
      have hw : isWindow os (findMainWindow os processId) = true :=
        (Bool.and_eq_true_iff.mp hcond).2
      rw [hfm] at hw
      exact hw
    · rw [if_neg (by simpa using hcond)] at hh
      simp [okResult] at hh

/-- Witness for C8: a process whose only window has been destroyed resolves
to failure with no handle. -/
theorem getMainWindow_no_stale_handle_witness :
    (getMainWindowAPI
      ⟨[(5, ⟨false, 0x10CF0000, 0, 0, "t", "C", 3, 0, 0, 9, 9, 0, none⟩)], 0, []⟩
      3).success = false
    ∧ (getMainWindowAPI
      ⟨[(5, ⟨false, 0x10CF0000, 0, 0, "t", "C", 3, 0, 0, 9, 9, 0, none⟩)], 0, []⟩
      3).hwnd = none :=
  (getMainWindow_no_stale_handle
    ⟨[(5, ⟨false, 0x10CF0000, 0, 0, "t", "C", 3, 0, 0, 9, 9, 0, none⟩)], 0, []⟩
    3).1 (by decide)

/-! ## Claim C7: the boundary result shape -/

/-- Counterexample to claim C7 as stated: `GetMainWindowAPI`'s failure branch
(lines 520-522 of the source) sets `success = false` but attaches no error
string at all. -/
theorem boundary_failure_without_error_string :
    (getMainWindowAPI ⟨[], 0, []⟩ 1).success = false
    ∧ (getMainWindowAPI ⟨[], 0, []⟩ 1).error = none := by
  exact ⟨by decide, by decide⟩

/-- Claim C7 (amended): every operation reports failure as a structured
result with `success = false` rather than an exception, and every failing
operation carries an error string — except `GetMainWindowAPI`
(resolveMainWindow), whose failure result carries `success = false` and no
error string. -/
theorem boundary_failures_structured :
    (∀ (os : MockOS) (hwnd parentHWND : Nat) (x y width height : Int),
      (embedWindow os hwnd parentHWND x y width height).res.success = false →
      (embedWindow os hwnd parentHWND x y width height).res.error.isSome = true)
    ∧ (∀ (os : MockOS) (hwnd : Nat) (visible : Bool),
      (showWindowNative os hwnd visible).res.success = false →
      (showWindowNative os hwnd visible).res.error.isSome = true)
    ∧ (∀ (os : MockOS) (hwnd : Nat) (x y width height : Int),
      (resizeWindow os hwnd x y width height).res.success = false →
      (resizeWindow os hwnd x y width height).res.error.isSome = true)
    ∧ (∀ (os : MockOS) (hwnd : Nat) (x y : Int),
      (moveWindowNative os hwnd x y).res.success = false →
      (moveWindowNative os hwnd x y).res.error.isSome = true)
    ∧ (∀ (os : MockOS) (hwnd : Nat),
      (unparentWindow os hwnd).res.success = false →
      (unparentWindow os hwnd).res.error.isSome = true)
    ∧ (∀ (os : MockOS) (processId : Nat),
      (terminateProcessNative os processId).res.success = false →
      (terminateProcessNative os processId).res.error.isSome = true)
    ∧ (∀ (os : MockOS) (hwnd : Nat),
      (getWindowInfoNative os hwnd).res.success = false →
      (getWindowInfoNative os hwnd).res.error.isSome = true)
    ∧ (∀ (os : MockOS) (path : String) (spawn : Option (Nat × Nat)),
      (launchApplication os path spawn).res.success = false →
      (launchApplication os path spawn).res.error.isSome = true)
    ∧ (∀ (os : MockOS) (processId : Nat),
      (getMainWindowAPI os processId).success = false →
      (getMainWindowAPI os processId).error = none) := by
  refine ⟨?_, ?_, ?_, ?_, ?_, ?_, ?_, ?_, ?_⟩
  · intro os hwnd parentHWND x y width height hfail
    simp only [embedWindow] at hfail ⊢
    split_ifs at hfail ⊢ <;> simp_all [errResult, okResult]
  · intro os hwnd visible hfail
    simp only [showWindowNative] at hfail ⊢
    split_ifs at hfail ⊢ <;> simp_all [errResult, okResult]
  · intro os hwnd x y width height hfail
    simp only [resizeWindow] at hfail ⊢
    split_ifs at hfail ⊢ <;> simp_all [errResult, okResult]
  · intro os hwnd x y hfail
    simp only [moveWindowNative] at hfail ⊢
    cases hr : getWindowRectOS os hwnd with
    | none => split_ifs at hfail ⊢ <;> simp_all [errResult, okResult]
    | some rect =>
      obtain ⟨l, t, r, b⟩ := rect
      by_cases hiw : isWindow os hwnd = false
      · simp_all [errResult]
      · simp only [if_neg hiw] at hfail ⊢
        by_cases hps : (setWindowPosOS os hwnd x y (r - l) (b - t)
            ⟨true, false, false, true, false⟩).1 = true
        · simp_all [okResult]
        · simp_all [errResult]
  · intro os hwnd hfail
    simp only [unparentWindow] at hfail ⊢
    split_ifs at hfail ⊢ <;> simp_all [errResult, okResult]
  · intro os processId hfail
    simp only [terminateProcessNative] at hfail ⊢
    split_ifs at hfail ⊢ <;> simp_all [errResult, okResult]
  · intro os hwnd hfail
    cases hw : os.find hwnd with
    | none =>
      simp only [getWindowInfoNative, hw] at hfail ⊢
      split_ifs at hfail ⊢ <;> simp_all [errResult, okResult]
    | some w =>
      simp only [getWindowInfoNative, hw] at hfail ⊢
      split_ifs at hfail ⊢ <;> simp_all [errResult, okResult]
  · intro os path spawn hfail
    cases spawn with
    | none => simp [launchApplication, errResult]
    | some pr => simp [launchApplication, okResult] at hfail
  · intro os processId hfail
    simp only [getMainWindowAPI] at hfail ⊢
    split_ifs at hfail ⊢ <;> simp_all [okResult]

/-- Witness for the amended C7: a dead-handle embed fails and carries an
error string. -/
theorem boundary_failures_structured_witness :
    (embedWindow ⟨[], 0, []⟩ 5 1 0 0 10 10).res.error.isSome = true :=
  boundary_failures_structured.1 ⟨[], 0, []⟩ 5 1 0 0 10 10 (by decide)

/-! ## Remaining witnesses -/

/-- Witness for C4: a live window that refuses reparenting with error 87, and
one that fails with error 5, produce the two distinct messages. -/
theorem embed_reparent_failure_messages_witness :
    ((embedWindow
        ⟨[(5, ⟨true, 0x10CF0000, 0, 0, "r", "R", 3, 0, 0, 9, 9, 87, none⟩)], 0, [3]⟩
        5 2 0 0 10 10).res.success = false
      ∧ (embedWindow
        ⟨[(5, ⟨true, 0x10CF0000, 0, 0, "r", "R", 3, 0, 0, 9, 9, 87, none⟩)], 0, [3]⟩
        5 2 0 0 10 10).res.error =
          (if (87 : Nat) = 87
           then some "Application refuses window embedding (security restriction)"
           else some ("Failed to set parent: " ++ getLastErrorString 87)))
    ∧ ((embedWindow
        ⟨[(5, ⟨true, 0x10CF0000, 0, 0, "r", "R", 3, 0, 0, 9, 9, 5, none⟩)], 0, [3]⟩
        5 2 0 0 10 10).res.success = false
      ∧ (embedWindow
        ⟨[(5, ⟨true, 0x10CF0000, 0, 0, "r", "R", 3, 0, 0, 9, 9, 5, none⟩)], 0, [3]⟩
        5 2 0 0 10 10).res.error =
          (if (5 : Nat) = 87
           then some "Application refuses window embedding (security restriction)"
           else some ("Failed to set parent: " ++ getLastErrorString 5))) :=
  ⟨embed_reparent_failure_messages
      ⟨[(5, ⟨true, 0x10CF0000, 0, 0, "r", "R", 3, 0, 0, 9, 9, 87, none⟩)], 0, [3]⟩
      5 2 0 0 10 10 ⟨true, 0x10CF0000, 0, 0, "r", "R", 3, 0, 0, 9, 9, 87, none⟩
      (by decide) rfl rfl (by decide),
    embed_reparent_failure_messages
      ⟨[(5, ⟨true, 0x10CF0000, 0, 0, "r", "R", 3, 0, 0, 9, 9, 5, none⟩)], 0, [3]⟩
      5 2 0 0 10 10 ⟨true, 0x10CF0000, 0, 0, "r", "R", 3, 0, 0, 9, 9, 5, none⟩
      (by decide) rfl rfl (by decide)⟩

/-- Witness for C6: moving a concrete 30-by-40 window to (7, 8) keeps its
size. -/
theorem moveWindow_preserves_size_witness :
    (moveWindowNative
      ⟨[(5, ⟨true, 0x10CF0000, 0, 0, "m", "M", 3, 10, 20, 40, 60, 0, none⟩)], 0, [3]⟩
      5 7 8).res.success = true
    ∧ ∃ w', (moveWindowNative
        ⟨[(5, ⟨true, 0x10CF0000, 0, 0, "m", "M", 3, 10, 20, 40, 60, 0, none⟩)], 0, [3]⟩
        5 7 8).os.find 5 = some w'
      ∧ w'.rRight - w'.rLeft = (40 : Int) - 10
      ∧ w'.rBottom - w'.rTop = (60 : Int) - 20
      ∧ w'.rLeft = 7 ∧ w'.rTop = 8 :=
  moveWindow_preserves_size
    ⟨[(5, ⟨true, 0x10CF0000, 0, 0, "m", "M", 3, 10, 20, 40, 60, 0, none⟩)], 0, [3]⟩
    5 7 8 ⟨true, 0x10CF0000, 0, 0, "m", "M", 3, 10, 20, 40, 60, 0, none⟩
    (by decide) rfl rfl

/-- Witness for C10: showing a live hidden window reports failure with an
error message while actually making the window visible. -/
theorem showWindow_previous_visibility_witness :
    (showWindowNative
      ⟨[(5, ⟨true, 0x00CF0000, 0, 0, "h", "H", 3, 0, 0, 9, 9, 0, none⟩)], 0, [3]⟩
      5 true).res.success = false
    ∧ (showWindowNative
      ⟨[(5, ⟨true, 0x00CF0000, 0, 0, "h", "H", 3, 0, 0, 9, 9, 0, none⟩)], 0, [3]⟩
      5 true).res.error.isSome = true
    ∧ ∃ w', (showWindowNative
        ⟨[(5, ⟨true, 0x00CF0000, 0, 0, "h", "H", 3, 0, 0, 9, 9, 0, none⟩)], 0, [3]⟩
        5 true).os.find 5 = some w'
      ∧ w'.style &&& WS_VISIBLE ≠ 0 :=
  (showWindow_success_is_previous_visibility
    ⟨[(5, ⟨true, 0x00CF0000, 0, 0, "h", "H", 3, 0, 0, 9, 9, 0, none⟩)], 0, [3]⟩
    5 ⟨true, 0x00CF0000, 0, 0, "h", "H", 3, 0, 0, 9, 9, 0, none⟩
    (by decide) rfl rfl).2 (by decide)

end WindowManager
